import Mathlib

/-!
Verification of the Task lifecycle in cumulusci/core/tasks.py.

The embedding models, directly from the source:
- option dictionaries as insertion-ordered association lists with unique
  keys (Python dict semantics for get, containment, item assignment,
  update);
- Task._init_options, including the aliasing of task_config.options and
  the $project_config.<attr> indirection pass;
- Task._validate_options and its aggregated TaskOptionsError;
- Task.__init__'s salesforce_task credential check;
- Task.__call__ with the _process_exception interception hook;
- BaseTask._process_exception's sentry tag construction and reporting.
-/

/-- Python values that appear as option values and as attributes of the
project config and the org config: None, strings, integers, booleans. -/
inductive Value where
  | none
  | str (s : String)
  | int (n : Int)
  | bool (b : Bool)
  deriving DecidableEq, Repr

/-- An insertion-ordered, string-keyed dictionary (a Python dict). -/
abbrev Dict (α : Type) := List (String × α)

/-- Task option values keyed by option name. -/
abbrev OptionMap := Dict Value

/-- Python d.get(k): the binding of the (unique) key k, if present. -/
def dget {α : Type} : Dict α → String → Option α
  | [], _ => Option.none
  | (k, v) :: rest, key => if k = key then some v else dget rest key

/-- Python `k in d`. -/
def dcontains {α : Type} (d : Dict α) (key : String) : Bool :=
  (dget d key).isSome

/-- Python d[k] = v: replace the value in place when k is present
(insertion order preserved), otherwise append the new binding. -/
def dset {α : Type} : Dict α → String → α → Dict α
  | [], key, v => [(key, v)]
  | (k, v0) :: rest, key, v =>
      if k = key then (k, v) :: rest else (k, v0) :: dset rest key v

/-- Python d.update(e): assign each binding of e into d, left to right. -/
def dupdate {α : Type} (d e : Dict α) : Dict α :=
  e.foldl (fun acc kv => dset acc kv.1 kv.2) d

/-- The project config, seen as its attribute dictionary. -/
abbrev ProjectConfig := Dict Value

/-- Python getattr(project_config, attr, None). -/
def pcGetattr (pc : ProjectConfig) (attr : String) : Value :=
  (dget pc attr).getD Value.none

/-- The indirection marker recognized by Task._init_options. -/
def indirMarker : String := "$project_config."

/-- Python s.startswith(p): a character-level prefix test. -/
def strStartsWith (s p : String) : Bool :=
  p.data.isPrefixOf s.data

/-- Drop the first n characters of s; this is the effect of
s.replace(p, this, 1) with an empty replacement when s starts with p,
since the first occurrence is then at position 0. -/
def strDropChars (s : String) (n : Nat) : String :=
  String.mk (s.data.drop n)

/-- One value's pass of the dynamic lookup loop in Task._init_options:
a string value starting with the marker is replaced by
getattr(project_config, attr, None); every other value is left
unchanged (a non-string value has no .startswith, and the resulting
AttributeError is caught and ignored). -/
def resolveValue (pc : ProjectConfig) : Value → Value
  | Value.str s =>
      if strStartsWith s indirMarker then
        pcGetattr pc (strDropChars s indirMarker.data.length)
      else Value.str s
  | v => v

/-- Task._init_options: self.options aliases task_config.options (or is a
fresh empty dict when that is None), kwargs are merged on top via
dict.update, and then each value is resolved in place by the
$project_config lookup loop (the loop iterates over a snapshot of the
items and assigns resolved values back under the same keys). -/
def initOptions (pc : ProjectConfig) (taskConfigOptions : Option OptionMap)
    (kwargs : OptionMap) : OptionMap :=
  (dupdate (taskConfigOptions.getD []) kwargs).map
    (fun kv => (kv.1, resolveValue pc kv.2))

/-- Exceptions raised by the Task constructor. -/
inductive TaskError where
  | taskRequiresSalesforceOrg (msg : String)
  | taskOptionsError (msg : String)
  deriving DecidableEq, Repr

/-- The declared option schema (class attribute task_options): option
name mapped to its config dict. -/
abbrev TaskOptions := Dict OptionMap

/-- Whether an option config marks the option required: the source tests
config.get('required') is True, i.e. the entry must be exactly True. -/
def requiredFlag (cfg : OptionMap) : Bool :=
  match dget cfg ("required") with
  | some (Value.bool true) => true
  | _ => false

/-- Task._validate_options' missing_required list: every required option
name absent from the resolved options, in declaration order. -/
def missingRequired (taskOptions : TaskOptions) (options : OptionMap) :
    List String :=
  taskOptions.filterMap
    (fun nc =>
      if requiredFlag nc.2 && !(dcontains options nc.1) then some nc.1
      else Option.none)

/-- The aggregated TaskOptionsError message format used by
Task._validate_options. -/
def optionsErrorMsg (className : String) (missing : List String) : String :=
  className ++ " requires the options (" ++
    String.intercalate (", ") missing ++ ") and no values were provided"

/-- Task._validate_options: succeed when no required option is missing,
otherwise raise a single TaskOptionsError naming every missing required
option. -/
def validateOptions (className : String) (taskOptions : TaskOptions)
    (options : OptionMap) : Except TaskError Unit :=
  let missing := missingRequired taskOptions options
  if missing.isEmpty then Except.ok ()
  else Except.error (TaskError.taskOptionsError (optionsErrorMsg className missing))

/-- The org/credential context consumed by the Task: its username and
its scratch attribute (kept as an arbitrary value because the sentry
reporter tests scratch is True). -/
structure OrgConfig where
  username : Value
  scratch : Value
  deriving DecidableEq, Repr

/-- The TaskRequiresSalesforceOrg message, verbatim from the source
(including its misspelling). -/
def orgRequiredMsg : String :=
  "This task requires a Saleforce org_config but" ++
    " none was passed to the Task constructor"

/-- A successfully constructed Task instance: the resolved options and
the freshly initialized return_values / result fields. -/
structure TaskInstance where
  options : OptionMap
  returnValues : OptionMap
  result : Option Value
  deriving DecidableEq, Repr

/-- Task.__init__ as observed by the caller: the pair of the caller's
task_config.options after construction and the outcome. The
salesforce_task credential check runs before _init_options touches any
option state; self.options aliases task_config.options when the latter
is not None, so the kwargs merge and the indirection pass write through
to the caller's mapping; _validate_options runs after that mutation. -/
def taskInit (salesforceTask : Bool) (className : String)
    (taskOptions : TaskOptions) (pc : ProjectConfig)
    (taskConfigOptions : Option OptionMap) (orgConfig : Option OrgConfig)
    (kwargs : OptionMap) :
    Option OptionMap × Except TaskError TaskInstance :=
  if salesforceTask && orgConfig.isNone then
    (taskConfigOptions,
      Except.error (TaskError.taskRequiresSalesforceOrg orgRequiredMsg))
  else
    let opts := initOptions pc taskConfigOptions kwargs
    let post := taskConfigOptions.map (fun _ => opts)
    match validateOptions className taskOptions opts with
    | Except.error e => (post, Except.error e)
    | Except.ok _ =>
        (post,
          Except.ok { options := opts, returnValues := [], result := Option.none })

/-- A Python exception as observed by Task.__call__: its type name and
its message. -/
structure Exn where
  name : String
  msg : String
  deriving DecidableEq, Repr

deriving instance DecidableEq for Except

/-- The observable outcome of Task.__call__: the result and
return_values fields afterwards, the arguments of every
_process_exception invocation, and the returned value or re-raised
exception. -/
structure CallResult where
  result : Option Value
  returnValues : OptionMap
  interceptorCalls : List Exn
  outcome : Except Exn OptionMap
  deriving DecidableEq, Repr

/-- Task.__call__: run the action (_run_task, a zero-argument callable
modelled by its outcome); on success store its value in self.result and
return self.return_values; on any exception call _process_exception(e)
once and re-raise e unchanged. -/
def taskCall (runTask : Except Exn Value) (result0 : Option Value)
    (returnValues0 : OptionMap) : CallResult :=
  match runTask with
  | Except.ok v =>
      { result := some v, returnValues := returnValues0,
        interceptorCalls := [], outcome := Except.ok returnValues0 }
  | Except.error e =>
      { result := result0, returnValues := returnValues0,
        interceptorCalls := [e], outcome := Except.error e }

/-- The sentry tag dict built by BaseTask._process_exception: the task
class name, then (when an org config is present) the org username and
whether scratch is True, then one tag per option under the key
option_ + name with the resolved value verbatim. -/
def sentryTags (className : String) (orgConfig : Option OrgConfig)
    (options : OptionMap) : OptionMap :=
  let tags : OptionMap := [(("task class"), Value.str className)]
  let tags :=
    match orgConfig with
    | some oc =>
        dset (dset tags ("org username") oc.username) ("scratch org")
          (Value.bool (decide (oc.scratch = Value.bool true)))
    | Option.none => tags
  options.foldl (fun acc kv => dset acc (("option_") ++ kv.1) kv.2) tags

/-- The observable effect of BaseTask._process_exception: the tag dicts
passed to sentry.tags_context, how many times captureException ran, and
project_config.sentry_event afterwards. -/
structure SentryEffect where
  tagsContext : List OptionMap
  captureCalls : Nat
  sentryEvent : Option Value
  deriving DecidableEq, Repr

/-- BaseTask._process_exception: when use_sentry is set, build the tags,
submit them via tags_context, capture the current exception (the client
returns resp) and store resp as project_config.sentry_event; otherwise
do nothing. -/
def processException (useSentry : Bool) (className : String)
    (orgConfig : Option OrgConfig) (options : OptionMap)
    (resp : Value) (prevEvent : Option Value) : SentryEffect :=
  if useSentry then
    { tagsContext := [sentryTags className orgConfig options],
      captureCalls := 1, sentryEvent := some resp }
  else
    { tagsContext := [], captureCalls := 0, sentryEvent := prevEvent }

/-! ### Dictionary lemmas -/

theorem dget_map {α β : Type} (f : α → β) :
    ∀ (d : Dict α) (key : String),
      dget (d.map (fun kv => (kv.1, f kv.2))) key = (dget d key).map f
  | [], _ => rfl
  | (k, v) :: rest, key => by
    by_cases h : k = key
    · simp [dget, h]
    · simp [dget, h, dget_map f rest key]

theorem dget_dset_self {α : Type} :
    ∀ (d : Dict α) (key : String) (v : α), dget (dset d key v) key = some v
  | [], key, v => by simp [dset, dget]
  | (k0, v0) :: rest, key, v => by
    by_cases h : k0 = key
    · simp [dset, dget, h]
    · simp [dset, dget, h, dget_dset_self rest key v]

theorem dget_dset_ne {α : Type} :
    ∀ (d : Dict α) (k0 key : String) (v : α), k0 ≠ key →
      dget (dset d k0 v) key = dget d key
  | [], k0, key, v, h => by simp [dset, dget, h]
  | (k1, v1) :: rest, k0, key, v, h => by
    by_cases h1 : k1 = k0
    · subst h1
      simp [dset, dget, h]
    · by_cases h2 : k1 = key <;>
        simp [dset, dget, h1, h2, Ne.symm h, dget_dset_ne rest k0 key v h]

theorem dget_append_left {α : Type} :
    ∀ (a b : Dict α) (key : String) (v : α),
      dget a key = some v → dget (a ++ b) key = some v
  | [], _, _, _, h => by simp [dget] at h
  | (k0, v0) :: rest, b, key, v, h => by
    by_cases h0 : k0 = key
    · simp [dget, h0] at h
      simp [dget, h0, h]
    · simp [dget, h0] at h
      simp [dget, h0, dget_append_left rest b key v h]

theorem dget_append_right {α : Type} :
    ∀ (a b : Dict α) (key : String),
      dget a key = Option.none → dget (a ++ b) key = dget b key
  | [], _, _, _ => rfl
  | (k0, v0) :: rest, b, key, h => by
    by_cases h0 : k0 = key
    · simp [dget, h0] at h
    · simp [dget, h0] at h
      simp [dget, h0, dget_append_right rest b key h]

theorem dset_eq_append {α : Type} :
    ∀ (d : Dict α) (key : String) (v : α),
      dget d key = Option.none → dset d key v = d ++ [(key, v)]
  | [], _, _, _ => rfl
  | (k0, v0) :: rest, key, v, h => by
    by_cases h0 : k0 = key
    · simp [dget, h0] at h
    · simp [dget, h0] at h
      simp [dset, h0, dset_eq_append rest key v h]

theorem dget_dupdate_skip {α : Type} :
    ∀ (e d : Dict α) (key : String),
      (∀ kv ∈ e, kv.1 ≠ key) → dget (dupdate d e) key = dget d key
  | [], _, _, _ => rfl
  | (k0, v0) :: rest, d, key, h => by
    have hstep : dupdate d ((k0, v0) :: rest) = dupdate (dset d k0 v0) rest := rfl
    rw [hstep, dget_dupdate_skip rest (dset d k0 v0) key (fun kv hm => h kv (List.mem_cons_of_mem _ hm))]
    exact dget_dset_ne d k0 key v0 (h (k0, v0) (List.mem_cons_self _ _))

theorem dget_dupdate_found {α : Type} :
    ∀ (e d : Dict α) (key : String) (w : α),
      (e.map (fun kv => kv.1)).Nodup → dget e key = some w →
      dget (dupdate d e) key = some w
  | [], _, _, _, _, h => by simp [dget] at h
  | (k0, v0) :: rest, d, key, w, hnd, h => by
    have hstep : dupdate d ((k0, v0) :: rest) = dupdate (dset d k0 v0) rest := rfl
    rw [List.map_cons, List.nodup_cons] at hnd
    by_cases h0 : k0 = key
    · simp [dget, h0] at h
      subst h0
      have hskip : ∀ kv ∈ rest, kv.1 ≠ k0 := by
        intro kv hm he
        exact hnd.1 (he ▸ List.mem_map_of_mem (fun kv => kv.1) hm)
      rw [hstep, dget_dupdate_skip rest (dset d k0 v0) k0 hskip,
        dget_dset_self d k0 v0, h]
    · simp [dget, h0] at h
      rw [hstep]
      exact dget_dupdate_found rest (dset d k0 v0) key w hnd.2 h

/-! ### String key lemmas for the sentry tag dict -/

theorem optionKeyInj (a b : String) (h : ("option_" : String) ++ a = ("option_" : String) ++ b) :
    a = b := by
  have hd : ("option_" : String).data ++ a.data = ("option_" : String).data ++ b.data :=
    congrArg String.data h
  exact congrArg String.mk (List.append_cancel_left hd)

theorem taskClassKeyNe (k : String) : ("task class" : String) ≠ ("option_" : String) ++ k := by
  intro h
  have h2 : (String.data ("task class")).take 2 = (String.data (("option_" : String) ++ k)).take 2 :=
    congrArg (fun s : String => s.data.take 2) h
  have h3 : (['t', 'a'] : List Char) = ['o', 'p'] := h2
  exact absurd h3 (by decide)

theorem orgUserKeyNe (k : String) : ("org username" : String) ≠ ("option_" : String) ++ k := by
  intro h
  have h2 : (String.data ("org username")).take 2 = (String.data (("option_" : String) ++ k)).take 2 :=
    congrArg (fun s : String => s.data.take 2) h
  have h3 : (['o', 'r'] : List Char) = ['o', 'p'] := h2
  exact absurd h3 (by decide)

theorem scratchKeyNe (k : String) : ("scratch org" : String) ≠ ("option_" : String) ++ k := by
  intro h
  have h2 : (String.data ("scratch org")).take 2 = (String.data (("option_" : String) ++ k)).take 2 :=
    congrArg (fun s : String => s.data.take 2) h
  have h3 : (['s', 'c'] : List Char) = ['o', 'p'] := h2
  exact absurd h3 (by decide)

theorem foldl_dset_fresh :
    ∀ (opts : OptionMap) (acc : OptionMap),
      (∀ k, k ∈ opts.map (fun kv => kv.1) → dget acc (("option_" : String) ++ k) = Option.none) →
      (opts.map (fun kv => kv.1)).Nodup →
      opts.foldl (fun a kv => dset a (("option_" : String) ++ kv.1) kv.2) acc
        = acc ++ opts.map (fun kv => ((("option_" : String) ++ kv.1), kv.2))
  | [], acc, _, _ => by simp
  | (k, v) :: rest, acc, hfresh, hnd => by
    rw [List.map_cons, List.nodup_cons] at hnd
    have hk : dget acc (("option_" : String) ++ k) = Option.none :=
      hfresh k (by simp)
    have hstep : dset acc (("option_" : String) ++ k) v = acc ++ [((("option_" : String) ++ k), v)] :=
      dset_eq_append acc _ v hk
    have hfresh2 : ∀ k0, k0 ∈ rest.map (fun kv => kv.1) →
        dget (acc ++ [((("option_" : String) ++ k), v)]) (("option_" : String) ++ k0) = Option.none := by
      intro k0 hm
      have hne : ("option_" : String) ++ k ≠ ("option_" : String) ++ k0 := by
        intro he
        exact hnd.1 (optionKeyInj k k0 he ▸ hm)
      rw [dget_append_right acc _ _ (hfresh k0 (by simp [hm]))]
      simp [dget, hne]
    calc List.foldl (fun a kv => dset a (("option_" : String) ++ kv.1) kv.2) acc ((k, v) :: rest)
        = List.foldl (fun a kv => dset a (("option_" : String) ++ kv.1) kv.2)
            (acc ++ [((("option_" : String) ++ k), v)]) rest := by rw [List.foldl_cons, hstep]
      _ = (acc ++ [((("option_" : String) ++ k), v)]) ++ rest.map (fun kv => ((("option_" : String) ++ kv.1), kv.2)) :=
            foldl_dset_fresh rest _ hfresh2 hnd.2
      _ = acc ++ ((k, v) :: rest).map (fun kv => ((("option_" : String) ++ kv.1), kv.2)) := by
            simp

theorem sentryTags_eq_some (cls : String) (oc : OrgConfig) (opts : OptionMap)
    (hnd : (opts.map (fun kv => kv.1)).Nodup) :
    sentryTags cls (some oc) opts
      = [(("task class"), Value.str cls), (("org username"), oc.username),
         (("scratch org"), Value.bool (decide (oc.scratch = Value.bool true)))]
        ++ opts.map (fun kv => ((("option_" : String) ++ kv.1), kv.2)) := by
  have e1 : dset [(("task class"), Value.str cls)] ("org username") oc.username
      = [(("task class"), Value.str cls), (("org username"), oc.username)] := by
    simp [dset, show ("task class" : String) ≠ "org username" from by decide]
  have e2 : dset [(("task class"), Value.str cls), (("org username"), oc.username)]
      ("scratch org") (Value.bool (decide (oc.scratch = Value.bool true)))
      = [(("task class"), Value.str cls), (("org username"), oc.username),
         (("scratch org"), Value.bool (decide (oc.scratch = Value.bool true)))] := by
    simp [dset, show ("task class" : String) ≠ "scratch org" from by decide,
      show ("org username" : String) ≠ "scratch org" from by decide]
  have hfresh : ∀ k, k ∈ opts.map (fun kv => kv.1) →
      dget [(("task class"), Value.str cls), (("org username"), oc.username),
        (("scratch org"), Value.bool (decide (oc.scratch = Value.bool true)))]
        (("option_" : String) ++ k) = Option.none := by
    intro k _
    simp [dget, taskClassKeyNe k, orgUserKeyNe k, scratchKeyNe k]
  simp only [sentryTags]
  rw [e1, e2]
  exact foldl_dset_fresh opts _ hfresh hnd

theorem sentryTags_eq_none (cls : String) (opts : OptionMap)
    (hnd : (opts.map (fun kv => kv.1)).Nodup) :
    sentryTags cls Option.none opts
      = [(("task class"), Value.str cls)]
        ++ opts.map (fun kv => ((("option_" : String) ++ kv.1), kv.2)) := by
  have hfresh : ∀ k, k ∈ opts.map (fun kv => kv.1) →
      dget [(("task class"), Value.str cls)] (("option_" : String) ++ k) = Option.none := by
    intro k _
    simp [dget, taskClassKeyNe k]
  exact foldl_dset_fresh opts _ hfresh hnd

/-! ### Validation lemmas -/

theorem missingRequired_eq_filter (taskOptions : TaskOptions) (opts : OptionMap) :
    missingRequired taskOptions opts
      = (taskOptions.filter
          (fun nc => requiredFlag nc.2 && !(dcontains opts nc.1))).map (fun nc => nc.1) := by
  induction taskOptions with
  | nil => rfl
  | cons hd tl ih =>
    unfold missingRequired at ih ⊢
    rw [List.filterMap_cons, List.filter_cons]
    cases h : (requiredFlag hd.2 && !(dcontains opts hd.1)) <;> simp [h] <;>
      simpa using ih

theorem missingRequired_nil_iff (taskOptions : TaskOptions) (opts : OptionMap) :
    missingRequired taskOptions opts = [] ↔
      ∀ nc ∈ taskOptions, requiredFlag nc.2 = true → dcontains opts nc.1 = true := by
  rw [missingRequired, List.filterMap_eq_nil_iff]
  constructor
  · intro h nc hm hreq
    have h2 := h nc hm
    cases hcon : dcontains opts nc.1 with
    | true => rfl
    | false => simp [hreq, hcon] at h2
  · intro h nc hm
    cases hreq : requiredFlag nc.2 with
    | true => simp [hreq, h nc hm hreq]
    | false => simp [hreq]

/-! ### The claims -/

/-- Claim C2: for every task instance whose action raises an exception,
calling the instance invokes _process_exception exactly once with that
exception, and then re-raises the original exception unchanged (same
type, same message); the controller never swallows or wraps action
failures. -/
theorem c2_failure_interception (e : Exn) (result0 : Option Value)
    (returnValues0 : OptionMap) :
    (taskCall (Except.error e) result0 returnValues0).interceptorCalls = [e]
    ∧ (taskCall (Except.error e) result0 returnValues0).outcome = Except.error e :=
  ⟨rfl, rfl⟩

/-- Claim C6: for every task instance whose action completes without
raising, calling the instance returns the return_values mapping, sets
result to the action's return value, and never invokes
_process_exception. -/
theorem c6_success_path (v : Value) (result0 : Option Value)
    (returnValues0 : OptionMap) :
    taskCall (Except.ok v) result0 returnValues0
      = { result := some v, returnValues := returnValues0,
          interceptorCalls := [], outcome := Except.ok returnValues0 } :=
  rfl

/-- Claim C8: for every task instance whose action raises an exception,
the result field and the return_values mapping remain at their
pre-execution values (result stays at the None set by the constructor,
return_values stays as it was before the call) — __call__ writes
neither on the failure path. -/
theorem c8_failure_frame (e : Exn) (result0 : Option Value)
    (returnValues0 : OptionMap) :
    (taskCall (Except.error e) result0 returnValues0).result = result0
    ∧ (taskCall (Except.error e) result0 returnValues0).returnValues = returnValues0 :=
  ⟨rfl, rfl⟩

/-- Claim C4: for every task type whose salesforce_task flag is set,
construction with no org_config fails with TaskRequiresSalesforceOrg
(the spec's MissingCredentialsError) before any option resolution is
performed: the caller's options mapping is returned untouched, whatever
the config, kwargs and schema were. -/
theorem c4_missing_credentials_first (className : String)
    (taskOptions : TaskOptions) (pc : ProjectConfig)
    (taskConfigOptions : Option OptionMap) (kwargs : OptionMap) :
    taskInit true className taskOptions pc taskConfigOptions Option.none kwargs
      = (taskConfigOptions,
         Except.error (TaskError.taskRequiresSalesforceOrg orgRequiredMsg)) :=
  rfl

/-- Claim C10: required-option validation checks key presence only:
validation succeeds if and only if every option name whose config marks
it required is present as a key in the resolved options, regardless of
its value (in particular a required option resolved to None passes). -/
theorem c10_presence_only_validation (className : String)
    (taskOptions : TaskOptions) (opts : OptionMap) :
    validateOptions className taskOptions opts = Except.ok ()
      ↔ ∀ nc ∈ taskOptions, requiredFlag nc.2 = true → dcontains opts nc.1 = true := by
  rw [← missingRequired_nil_iff taskOptions opts]
  unfold validateOptions
  cases hm : missingRequired taskOptions opts with
  | nil => simp
  | cons a l => simp

/-- Claim C3: whenever two or more required options are missing from the
resolved options, validation raises a single aggregated TaskOptionsError
whose message names every missing required option via the
comma-intercalated missing_required list, which is exactly the
declaration-order list of required option names absent from the
options. -/
theorem c3_aggregated_options_error (className : String)
    (taskOptions : TaskOptions) (opts : OptionMap)
    (h : 2 ≤ (missingRequired taskOptions opts).length) :
    validateOptions className taskOptions opts
      = Except.error (TaskError.taskOptionsError
          (optionsErrorMsg className (missingRequired taskOptions opts)))
    ∧ missingRequired taskOptions opts
      = (taskOptions.filter
          (fun nc => requiredFlag nc.2 && !(dcontains opts nc.1))).map (fun nc => nc.1) := by
  constructor
  · unfold validateOptions
    cases hm : missingRequired taskOptions opts with
    | nil => rw [hm] at h; simp at h
    | cons a l => simp
  · exact missingRequired_eq_filter taskOptions opts

/-- Witness for C3 at a concrete schema: required options a and b both
absent from empty resolved options. -/
theorem c3_aggregated_options_error_witness :
    2 ≤ (missingRequired
        [(("a"), [(("required"), Value.bool true)]),
         (("b"), [(("required"), Value.bool true)])] []).length
    ∧ (validateOptions ("TestTask")
        [(("a"), [(("required"), Value.bool true)]),
         (("b"), [(("required"), Value.bool true)])] []
      = Except.error (TaskError.taskOptionsError
          (optionsErrorMsg ("TestTask")
            (missingRequired
              [(("a"), [(("required"), Value.bool true)]),
               (("b"), [(("required"), Value.bool true)])] [])))
      ∧ missingRequired
          [(("a"), [(("required"), Value.bool true)]),
           (("b"), [(("required"), Value.bool true)])] []
        = (([(("a"), [(("required"), Value.bool true)]),
             (("b"), [(("required"), Value.bool true)])] : TaskOptions).filter
            (fun nc => requiredFlag nc.2 && !(dcontains ([] : OptionMap) nc.1))).map (fun nc => nc.1)) :=
  ⟨by decide,
   c3_aggregated_options_error ("TestTask")
     [(("a"), [(("required"), Value.bool true)]),
      (("b"), [(("required"), Value.bool true)])] [] (by decide)⟩

/-- Claim C1 as stated is false on the code: when the attribute named by
a $project_config.<attr> option value does not exist, _init_options does
not leave the literal string unchanged — getattr's None default replaces
the value with None. Counterexample: an empty project config and the
option value $project_config.missing. -/
theorem c1_missing_attr_counterexample :
    dget (initOptions [] (some [(("opt"), Value.str ("$project_config.missing"))]) [])
        ("opt") = some Value.none
    ∧ Value.none ≠ Value.str ("$project_config.missing") :=
  ⟨rfl, by decide⟩

/-- Claim C1 (amended): an option value of the form $project_config.<attr>
is replaced by getattr(project_config, attr, None) — the attribute's
value when it exists and None when it does not (never the original
literal, and no failure is raised); option resolution maps every entry
pointwise; and non-string values are left unchanged. -/
theorem c1_indirection_amended (pc : ProjectConfig) (s attr : String)
    (d : OptionMap) (k : String)
    (h1 : strStartsWith s indirMarker = true)
    (h2 : strDropChars s indirMarker.data.length = attr) :
    resolveValue pc (Value.str s) = (dget pc attr).getD Value.none
    ∧ dget (initOptions pc (some d) []) k = (dget d k).map (resolveValue pc)
    ∧ (∀ v : Value, (∀ t : String, v ≠ Value.str t) → resolveValue pc v = v) := by
  refine ⟨?_, ?_, ?_⟩
  · have hstep : resolveValue pc (Value.str s)
        = pcGetattr pc (strDropChars s indirMarker.data.length) := by
      show (if strStartsWith s indirMarker = true then
          pcGetattr pc (strDropChars s indirMarker.data.length)
        else Value.str s) = pcGetattr pc (strDropChars s indirMarker.data.length)
      rw [h1]
      rfl
    rw [hstep, h2]
    rfl
  · have hbase : initOptions pc (some d) []
        = d.map (fun kv => (kv.1, resolveValue pc kv.2)) := rfl
    rw [hbase, dget_map]
  · intro v hv
    cases v with
    | str t => exact absurd rfl (hv t)
    | none => rfl
    | int n => rfl
    | bool b => rfl

/-- Witness for the amended C1: project config exposing foo = 42, option
value $project_config.foo, and an untouched non-indirection option. -/
theorem c1_indirection_amended_witness :
    strStartsWith ("$project_config.foo") indirMarker = true
    ∧ strDropChars ("$project_config.foo") indirMarker.data.length = ("foo")
    ∧ (resolveValue [(("foo"), Value.int 42)] (Value.str ("$project_config.foo"))
        = (dget [(("foo"), Value.int 42)] ("foo")).getD Value.none
      ∧ dget (initOptions [(("foo"), Value.int 42)] (some [(("x"), Value.int 1)]) []) ("x")
        = (dget [(("x"), Value.int 1)] ("x")).map (resolveValue [(("foo"), Value.int 42)])
      ∧ (∀ v : Value, (∀ t : String, v ≠ Value.str t) →
          resolveValue [(("foo"), Value.int 42)] v = v)) :=
  ⟨by decide, by decide,
   c1_indirection_amended [(("foo"), Value.int 42)] ("$project_config.foo") ("foo")
     [(("x"), Value.int 1)] ("x") (by decide) (by decide)⟩

/-- Claim C5: for every option name present in both the config options
and the construction-time kwargs, the resolved value is the override's
value (stated for override values the indirection pass leaves fixed,
e.g. any non-indirection value); and the concrete scenario: definition
{path: {required: true}}, config {}, overrides {path: /tmp} constructs
successfully with resolved options {path: /tmp}. -/
theorem c5_overrides_precedence (pc : ProjectConfig) (cfg kwargs : OptionMap)
    (k : String) (u w : Value)
    (hnd : (kwargs.map (fun kv => kv.1)).Nodup)
    (h1 : dget cfg k = some u) (h2 : dget kwargs k = some w)
    (h3 : resolveValue pc w = w) :
    dget (initOptions pc (some cfg) kwargs) k = some w
    ∧ taskInit false ("AnyTask") [(("path"), [(("required"), Value.bool true)])] pc
        (some []) Option.none [(("path"), Value.str ("/tmp"))]
      = (some [(("path"), Value.str ("/tmp"))],
         Except.ok { options := [(("path"), Value.str ("/tmp"))],
                     returnValues := [], result := Option.none }) := by
  constructor
  · have hup : dget (dupdate cfg kwargs) k = some w :=
      dget_dupdate_found kwargs cfg k w hnd h2
    have hbase : initOptions pc (some cfg) kwargs
        = (dupdate cfg kwargs).map (fun kv => (kv.1, resolveValue pc kv.2)) := rfl
    rw [hbase, dget_map, hup]
    simp [h3]
  · have hsw : strStartsWith ("/tmp") indirMarker = false := by decide
    have hres : initOptions pc (some []) [(("path"), Value.str ("/tmp"))]
        = [(("path"), Value.str ("/tmp"))] := by
      simp [initOptions, dupdate, dset, resolveValue, hsw]
    simp [taskInit, hres, validateOptions, missingRequired, requiredFlag,
      dcontains, dget]

/-- Witness for C5: config {x:1}, overrides {x:2}, resolved x = 2. -/
theorem c5_overrides_precedence_witness :
    (([(("x"), Value.int 2)] : OptionMap).map (fun kv => kv.1)).Nodup
    ∧ dget [(("x"), Value.int 1)] ("x") = some (Value.int 1)
    ∧ dget [(("x"), Value.int 2)] ("x") = some (Value.int 2)
    ∧ resolveValue [] (Value.int 2) = Value.int 2
    ∧ (dget (initOptions [] (some [(("x"), Value.int 1)]) [(("x"), Value.int 2)]) ("x")
        = some (Value.int 2)
      ∧ taskInit false ("AnyTask") [(("path"), [(("required"), Value.bool true)])] []
          (some []) Option.none [(("path"), Value.str ("/tmp"))]
        = (some [(("path"), Value.str ("/tmp"))],
           Except.ok { options := [(("path"), Value.str ("/tmp"))],
                       returnValues := [], result := Option.none })) :=
  ⟨by decide, rfl, rfl, rfl,
   c5_overrides_precedence [] [(("x"), Value.int 1)] [(("x"), Value.int 2)] ("x")
     (Value.int 1) (Value.int 2) (by decide) rfl rfl rfl⟩

/-- Claim C7 as stated is false on the code: the caller's TaskConfig
options mapping is not immutable — self.options aliases it, so merging
an override mutates it. Counterexample: config {x:1} with override
{x:2}; after construction the caller's mapping reads {x:2}. -/
theorem c7_mutation_counterexample :
    (taskInit false ("T") [] [] (some [(("x"), Value.int 1)]) Option.none
        [(("x"), Value.int 2)]).1 = some [(("x"), Value.int 2)]
    ∧ some [(("x"), Value.int 2)] ≠ some [(("x"), Value.int 1)] :=
  ⟨rfl, by decide⟩

/-- Claim C7 (amended): construction aliases rather than copies the
caller's options mapping: when task_config.options is not None, the
kwargs merge and indirection resolution write through to it, leaving it
equal to the resolved option set (on every non-credential-error path,
validation failure included); when it is None the caller's None is
untouched. -/
theorem c7_aliasing_amended (className : String) (taskOptions : TaskOptions)
    (pc : ProjectConfig) (d : OptionMap) (orgConfig : Option OrgConfig)
    (kwargs : OptionMap) :
    (taskInit false className taskOptions pc (some d) orgConfig kwargs).1
      = some (initOptions pc (some d) kwargs)
    ∧ (taskInit false className taskOptions pc Option.none orgConfig kwargs).1
      = Option.none := by
  constructor
  · cases h : validateOptions className taskOptions (initOptions pc (some d) kwargs) <;>
      simp [taskInit, h]
  · cases h : validateOptions className taskOptions (initOptions pc Option.none kwargs) <;>
      simp [taskInit, h]

/-- Claim C9: with sentry reporting active, _process_exception builds
exactly the tag set consisting of the task class name, then (when an org
config is present) the org username and whether scratch is True, then
one option_-prefixed tag per resolved option with its value verbatim; it
submits those tags, captures the exception once, and stores the returned
event handle as project_config.sentry_event. -/
theorem c9_sentry_report (className : String) (oc : OrgConfig)
    (opts : OptionMap) (resp : Value) (prevEvent : Option Value)
    (hnd : (opts.map (fun kv => kv.1)).Nodup) :
    processException true className (some oc) opts resp prevEvent
      = { tagsContext := [[(("task class"), Value.str className),
            (("org username"), oc.username),
            (("scratch org"), Value.bool (decide (oc.scratch = Value.bool true)))]
            ++ opts.map (fun kv => ((("option_" : String) ++ kv.1), kv.2))],
          captureCalls := 1, sentryEvent := some resp }
    ∧ processException true className Option.none opts resp prevEvent
      = { tagsContext := [[(("task class"), Value.str className)]
            ++ opts.map (fun kv => ((("option_" : String) ++ kv.1), kv.2))],
          captureCalls := 1, sentryEvent := some resp } := by
  constructor
  · simp [processException, sentryTags_eq_some className oc opts hnd]
  · simp [processException, sentryTags_eq_none className opts hnd]

/-- Witness for C9: one resolved option, a scratch org, a concrete event
handle. -/
theorem c9_sentry_report_witness :
    (([(("color"), Value.str ("red"))] : OptionMap).map (fun kv => kv.1)).Nodup
    ∧ (processException true ("Deploy")
          (some { username := Value.str ("u@example.org"), scratch := Value.bool true })
          [(("color"), Value.str ("red"))] (Value.str ("evt1")) Option.none
        = { tagsContext := [[(("task class"), Value.str ("Deploy")),
              (("org username"), Value.str ("u@example.org")),
              (("scratch org"), Value.bool (decide ((Value.bool true : Value) = Value.bool true)))]
              ++ ([(("color"), Value.str ("red"))] : OptionMap).map
                  (fun kv => ((("option_" : String) ++ kv.1), kv.2))],
            captureCalls := 1, sentryEvent := some (Value.str ("evt1")) }
      ∧ processException true ("Deploy") Option.none
          [(("color"), Value.str ("red"))] (Value.str ("evt1")) Option.none
        = { tagsContext := [[(("task class"), Value.str ("Deploy"))]
              ++ ([(("color"), Value.str ("red"))] : OptionMap).map
                  (fun kv => ((("option_" : String) ++ kv.1), kv.2))],
            captureCalls := 1, sentryEvent := some (Value.str ("evt1")) }) :=
  ⟨by decide,
   c9_sentry_report ("Deploy")
     { username := Value.str ("u@example.org"), scratch := Value.bool true }
     [(("color"), Value.str ("red"))] (Value.str ("evt1")) Option.none (by decide)⟩
